import Mathlib

/-!
Verification development for the OpenFold feature pipeline and frame algebra.

The Python sources embedded here are:
  * openfold/utils/feats.py            (feature builders, frame reconstruction)
  * openfold/features/input_pipeline.py (transform lists, ensembling controller)
  * openfold/features/feature_pipeline.py (config handling, top-level driver)

Tensors are modelled as flat rational arrays together with an explicit shape
list; tensor dictionaries are association lists from feature names to tensors,
which preserves the insertion order of Python dictionaries.  Machine floats are
modelled by exact rationals: every property checked here is about comparisons,
indexing and shapes, none of which depends on rounding.
-/

/-- Model of a torch tensor: an explicit shape together with the flat data,
stored in row-major order.  Rationals stand in for floats. -/
structure Tensor where
  shape : List Nat
  data : List Rat
deriving DecidableEq, Repr

/-- Scalar (0-d) tensor, as produced by `np.array(x)` or a Python number. -/
def scalarT (v : Rat) : Tensor := { shape := [], data := [v] }

/-- Model of `x[None]`: a unit-length LEADING axis is prepended. -/
def Tensor.unsqueezeLead (t : Tensor) : Tensor :=
  { shape := 1 :: t.shape, data := t.data }

/-- A unit-length TRAILING axis, the layout the spec postulates for the
single-ensemble shortcut (matching `torch.stack(..., dim=-1)` of one item). -/
def Tensor.unsqueezeTrail (t : Tensor) : Tensor :=
  { shape := t.shape ++ [1], data := t.data }

/-- Tensor dictionary: insertion-ordered association list, as a Python dict. -/
abbrev TensorDict : Type := List (String × Tensor)

/-- First binding of a key, as Python dict lookup (`d[k]`). -/
def dictLookup (d : TensorDict) (k : String) : Option Tensor :=
  match d with
  | [] => none
  | (k2, v) :: rest => if k2 = k then some v else dictLookup rest k

/-- Python dict assignment `d[k] = v`: replace in place when the key exists,
append at the end otherwise. -/
def dictSet (d : TensorDict) (k : String) (v : Tensor) : TensorDict :=
  match d with
  | [] => [(k, v)]
  | (k2, v2) :: rest =>
      if k2 = k then (k2, v) :: rest else (k2, v2) :: dictSet rest k v

/-- Python `d.pop(k)` restricted to its removal effect. -/
def dictErase (d : TensorDict) (k : String) : TensorDict :=
  match d with
  | [] => []
  | (k2, v2) :: rest =>
      if k2 = k then rest else (k2, v2) :: dictErase rest k

/-- Key list of a tensor dictionary, in insertion order. -/
def dictKeys (d : TensorDict) : List String := d.map Prod.fst

/-- Pointwise map over the values of a dictionary
(`tree.map_structure` on a flat dict). -/
def dictMapValues (f : Tensor → Tensor) (d : TensorDict) : TensorDict :=
  d.map (fun kv => (kv.1, f kv.2))

/-! ## Distogram binning in `build_template_pair_feat` (feats.py lines 89-99)

The source computes, for pseudo-beta points `tpb`:
  dgram = sum((tpb[..., None, :] - tpb[..., None, :, :]) ** 2, dim=-1)
  lower = torch.linspace(min_bin, max_bin, no_bins) ** 2
  upper = torch.cat([lower[:-1], [inf]])
  dgram = (dgram > lower) * (dgram < upper)
Each is embedded below exactly as written; in particular `upper` is built from
`lower[:-1]`, i.e. `upper[i] = lower[i]` for every bin but the last. -/

/-- A 3-d point (a pseudo-beta coordinate). -/
structure Vec3 where
  x : Rat
  y : Rat
  z : Rat
deriving DecidableEq, Repr

/-- Squared euclidean distance: the `dgram` entry for a pair of pseudo-beta
points, `sum((p - q) ** 2, dim=-1)`. -/
def sqDist (p q : Vec3) : Rat :=
  (p.x - q.x) ^ 2 + (p.y - q.y) ^ 2 + (p.z - q.z) ^ 2

/-- Entry `i` of `torch.linspace(lo, hi, n)`: `n` evenly spaced points from
`lo` to `hi` inclusive. -/
def linspace (lo hi : Rat) (n : Nat) (i : Nat) : Rat :=
  lo + (hi - lo) * i / (n - 1)

/-- Entry `i` of `lower = linspace(min_bin, max_bin, no_bins) ** 2`. -/
def dgramLower (minBin maxBin : Rat) (noBins : Nat) (i : Nat) : Rat :=
  (linspace minBin maxBin noBins i) ^ 2

/-- Entry `i` of `upper = torch.cat([lower[:-1], [inf]])`, exactly as in the
source: the first `no_bins - 1` entries are `lower[0] .. lower[no_bins-2]`
(NOT shifted by one), the last is `inf`. -/
def dgramUpper (minBin maxBin : Rat) (noBins : Nat) (inf : Rat) (i : Nat) :
    Rat :=
  if i + 1 < noBins then dgramLower minBin maxBin noBins i else inf

/-- Bin `i` of the distogram for squared distance `d2`:
`(dgram > lower) * (dgram < upper)` at index `i`. -/
def dgramBin (minBin maxBin : Rat) (noBins : Nat) (inf : Rat) (d2 : Rat)
    (i : Nat) : Bool :=
  decide (dgramLower minBin maxBin noBins i < d2) &&
    decide (d2 < dgramUpper minBin maxBin noBins inf i)

/-- The binning the spec describes: bin `i` is active when the squared
distance lies strictly between `lower[i]` and `lower[i+1]` (the last bin
extending to `inf`).  Stated from the spec for comparison with `dgramBin`. -/
def dgramBinPerSpec (minBin maxBin : Rat) (noBins : Nat) (inf : Rat)
    (d2 : Rat) (i : Nat) : Bool :=
  decide (dgramLower minBin maxBin noBins i < d2) &&
    decide (d2 < (if i + 1 < noBins then
      dgramLower minBin maxBin noBins (i + 1) else inf))

/-! ## input_pipeline.py: transform composition, ensembling, stacking -/

/-- Source `compose` (input_pipeline.py lines 145-149): left-to-right fold of
a list of dictionary transforms. -/
def composeFns (fs : List (TensorDict → TensorDict)) (x : TensorDict) :
    TensorDict :=
  match fs with
  | [] => x
  | f :: rest => composeFns rest (f x)

/-- Number of elements of a tensor of the given shape. -/
def prodShape (s : List Nat) : Nat := s.foldr (fun a b => a * b) 1

/-- Model of `torch.stack(ts, dim=-1)`: a NEW trailing axis of length
`ts.length`; entry `(i, j)` of the result is entry `i` of tensor `j`.
`torch.stack` requires all inputs to share a shape; the shape of the first
input is used here. -/
def stackLast (ts : List Tensor) : Tensor :=
  match ts with
  | [] => { shape := [], data := [] }
  | t0 :: _ =>
      { shape := t0.shape ++ [ts.length],
        data := (List.range (prodShape t0.shape)).flatMap
          (fun i => ts.map (fun t => t.data.getD i 0)) }

/-- Error-propagating traversal: apply `g` to every element in order, stop
at the first failure (the Python loop raises there). -/
def optionTraverse {α β : Type} (g : α → Option β) : List α → Option (List β)
  | [] => some []
  | a :: t =>
      match g a with
      | none => none
      | some b =>
          match optionTraverse g t with
          | none => none
          | some bs => some (b :: bs)

/-- Source `map_fn` (input_pipeline.py lines 152-160): apply `f` to every
element of `x`, take the key list of the FIRST result dictionary, and stack
each of those keys across all results along a new trailing axis.  A key of
the first dictionary missing from a later one is a Python `KeyError`,
modelled by `none`; an empty `x` indexes `ensembles[0]` out of range, also
`none`.  No key-set assertion is performed before stacking. -/
def map_fn (f : Nat → TensorDict) (x : List Nat) : Option TensorDict :=
  match x.map f with
  | [] => none
  | e0 :: rest =>
      optionTraverse (fun feat =>
        (optionTraverse (fun d => dictLookup d feat) (e0 :: rest)).map
          (fun ts => (feat, stackLast ts))) (dictKeys e0)

/-- Source `wrap_ensemble_fn` (input_pipeline.py lines 118-124) with the
ensembled transform list as a parameter: copy the dictionary, set
`ensemble_index = i`, then apply the composed ensembled transforms. -/
def wrap_ensemble_fn (ensembledFns : List (TensorDict → TensorDict))
    (data : TensorDict) (i : Nat) : TensorDict :=
  composeFns ensembledFns (dictSet data "ensemble_index" (scalarT i))

/-- Global names bound in the module
`openfold/features/input_pipeline.py`: the imports of lines 1-4 (the
functools helper, torch and data_transforms) together with the module-level
function definitions.  `tree` is NOT among them, yet line 140 references
it.  Python builtins such as `isinstance` resolve through the builtins
scope, not this list. -/
def inputPipelineModuleGlobals : List String :=
  ["partial", "torch", "data_transforms", "nonensembled_transform_fns",
   "ensembled_transform_fns", "process_tensors_from_config", "compose",
   "map_fn"]

/-- Resolution of a global name against the input_pipeline module
environment: an unbound name raises a `NameError`. -/
def resolvePipelineGlobal (n : String) : Except String Unit :=
  if inputPipelineModuleGlobals.contains n then Except.ok ()
  else Except.error ("NameError: " ++ n)

/-- Source `process_tensors_from_config` (input_pipeline.py lines 113-142),
parametric over the two transform lists (the transform bodies live in the
`data_transforms` module).  `num_ensemble` is modelled as a static count, so
the `isinstance(num_ensemble, torch.Tensor)` disjunct of the branch is
`False` and the branch reduces to `num_ensemble > 1`.  The `> 1` branch
re-applies the ensembled transforms per index of `torch.arange` and stacks
with `map_fn` (a failed per-key lookup there is a Python KeyError, surfaced
here without the offending key name).  The other branch evaluates
`tree.map_structure(lambda x: x[None], tensors_0)` (line 140): the global
`tree` is unbound in the module, so the branch raises `NameError: tree`;
the `Except.ok` arm after the resolution shows what the line would
otherwise compute — a unit LEADING axis per value — and is unreachable
(were `tree` bound, the line would still fail with a TypeError, since
`ensemble_index` is the plain int 0 in `tensors_0`). -/
def process_tensors_from_config
    (nonensembledFns ensembledFns : List (TensorDict → TensorDict))
    (num_ensemble num_recycle : Nat) (resample_msa_in_recycling : Bool)
    (tensors : TensorDict) : Except String TensorDict :=
  let tensors1 := composeFns nonensembledFns tensors
  let tensors0 := wrap_ensemble_fn ensembledFns tensors1 0
  let ne := if resample_msa_in_recycling then
    num_ensemble * (num_recycle + 1) else num_ensemble
  if 1 < ne then
    match map_fn (fun i => wrap_ensemble_fn ensembledFns tensors1 i)
        (List.range ne) with
    | some d => Except.ok d
    | none => Except.error ("KeyError: " ++ "stacking")
  else
    match resolvePipelineGlobal "tree" with
    | Except.error e => Except.error e
    | Except.ok _ => Except.ok (dictMapValues Tensor.unsqueezeLead tensors0)

/-! ## Seed flow of the ensembled transform list (claim C3)

`ensembled_transform_fns` (input_pipeline.py line 96) passes
`seed=torch.Generator().seed()` to `random_crop_to_size`; a fresh
`torch.Generator` seeded from ambient entropy yields a nondeterministic value
at every construction, and `wrap_ensemble_fn` reconstructs the transform list
at every invocation (line 121).  The ambient draw is modelled by an explicit
`ambientSeed` argument. -/

/-- Modelled from the spec: `data_transforms.random_crop_to_size` is not
under src/.  Spec section 4.1 describes it as a seeded random crop of the
residue axis to `crop_size`.  Modelled on one-axis tensors as keeping the
window of `crop_size` entries starting at offset `seed mod (n - crop_size + 1)`;
tensors of other ranks pass through unchanged. -/
def random_crop_to_size (cropSize : Nat) (seed : Nat) (d : TensorDict) :
    TensorDict :=
  dictMapValues (fun t =>
    match t.shape with
    | [n] =>
        if cropSize ≤ n then
          { shape := [cropSize],
            data := (t.data.drop (seed % (n - cropSize + 1))).take cropSize }
        else t
    | _ => t) d

/-- Modelled from the spec: the ensembled transform list of
input_pipeline.py lines 47-110 viewed as runnable functions.  The
`data_transforms` bodies are not under src/; the transforms before the crop
are seed-free pure dictionary maps (spec sections 4.1 and 5), irrelevant to
seed flow, and are modelled as the identity.  `random_crop_to_size` receives
`seed = torch.Generator().seed()` (line 96), a fresh draw from ambient
entropy at construction time, modelled by `ambientSeed`. -/
def ensembled_transform_fns_run (fixedSize : Bool) (cropSize : Nat)
    (ambientSeed : Nat) : List (TensorDict → TensorDict) :=
  if fixedSize then [random_crop_to_size cropSize ambientSeed] else []

/-- One invocation of `wrap_ensemble_fn` as written in the source: the
ensembled transform list is constructed afresh inside the call, so each
invocation consumes its own ambient entropy draw `ambientSeed`. -/
def wrap_ensemble_fn_run (fixedSize : Bool) (cropSize : Nat)
    (ambientSeed : Nat) (data : TensorDict) (i : Nat) : TensorDict :=
  composeFns (ensembled_transform_fns_run fixedSize cropSize ambientSeed)
    (dictSet data "ensemble_index" (scalarT i))

/-! ## Order of the ensembled transform list (claim C5) -/

/-- Configuration options of the `common` scope used by the pipeline
(spec section 3; the configuration module itself is not under src/).
`masked_msa_present` models the Python membership test
`masked_msa in common_cfg`. -/
structure CommonCfg where
  use_templates : Bool
  use_template_torsion_angles : Bool
  reduce_msa_clusters_by_max_templates : Bool
  max_extra_msa : Nat
  resample_msa_in_recycling : Bool
  num_recycle : Nat
  masked_msa_present : Bool
  msa_cluster_features : Bool
  unsupervised_features : List String
  template_features : List String
  supervised_features : List String
deriving DecidableEq, Repr

/-- Mode-specific configuration options (spec section 3). -/
structure ModeCfg where
  crop_size : Option Nat
  supervised : Bool
  fixed_size : Bool
  max_msa_clusters : Nat
  max_templates : Nat
  subsample_templates : Bool
  masked_msa_replace_fraction : Rat
  num_ensemble : Nat
deriving DecidableEq, Repr

/-- Names of the transforms appended by `ensembled_transform_fns`
(input_pipeline.py lines 47-110), with the arguments the source computes. -/
inductive Tfm where
  | sample_msa (maxClusters : Int) (keepExtra : Bool)
  | make_masked_msa (replaceFraction : Rat)
  | nearest_neighbor_clusters
  | summarize_clusters
  | crop_extra_msa (maxExtra : Nat)
  | delete_extra_msa
  | make_msa_feat
  | select_feat
  | random_crop
  | make_fixed_size
  | crop_templates (maxTemplates : Nat)
deriving DecidableEq, Repr

/-- Source `ensembled_transform_fns` (input_pipeline.py lines 47-110) as the
ordered list of transform names it builds: `sample_msa` always first; then
`make_masked_msa` when the masked-MSA config is present; then
`nearest_neighbor_clusters` and `summarize_clusters` when
`msa_cluster_features` is set; then the extra-MSA crop (or deletion when
`max_extra_msa` is falsy, i.e. zero); then `make_msa_feat`; then either the
fixed-size tail or `crop_templates`. -/
def ensembled_transform_fns (cc : CommonCfg) (mc : ModeCfg) : List Tfm :=
  let padMsaClusters : Int :=
    if cc.reduce_msa_clusters_by_max_templates then
      (mc.max_msa_clusters : Int) - (mc.max_templates : Int)
    else (mc.max_msa_clusters : Int)
  [Tfm.sample_msa padMsaClusters true]
    ++ (if cc.masked_msa_present then
          [Tfm.make_masked_msa mc.masked_msa_replace_fraction] else [])
    ++ (if cc.msa_cluster_features then
          [Tfm.nearest_neighbor_clusters, Tfm.summarize_clusters] else [])
    ++ (if cc.max_extra_msa ≠ 0 then
          [Tfm.crop_extra_msa cc.max_extra_msa] else [Tfm.delete_extra_msa])
    ++ [Tfm.make_msa_feat]
    ++ (if mc.fixed_size then
          [Tfm.select_feat, Tfm.random_crop, Tfm.make_fixed_size]
        else [Tfm.crop_templates mc.max_templates])

/-- The four MSA-stage transforms whose relative order claim C5 is about. -/
def isMsaStage : Tfm → Bool
  | Tfm.sample_msa _ _ => true
  | Tfm.make_masked_msa _ => true
  | Tfm.nearest_neighbor_clusters => true
  | Tfm.summarize_clusters => true
  | _ => false

/-! ## Frame algebra (feats.py lines 204-304)

The rigid-transform class `T` lives in `openfold/utils/affine_utils.py`,
which is not under src/; its operations are modelled from spec section 4.3.
All frame computations are stated per residue: the source batches the same
arithmetic over leading axes. -/

/-- A 3x3 matrix with rational entries, row major. -/
structure Mat3 where
  m00 : Rat
  m01 : Rat
  m02 : Rat
  m10 : Rat
  m11 : Rat
  m12 : Rat
  m20 : Rat
  m21 : Rat
  m22 : Rat
deriving DecidableEq, Repr

/-- Matrix product. -/
def Mat3.mul (a b : Mat3) : Mat3 :=
  { m00 := a.m00 * b.m00 + a.m01 * b.m10 + a.m02 * b.m20
    m01 := a.m00 * b.m01 + a.m01 * b.m11 + a.m02 * b.m21
    m02 := a.m00 * b.m02 + a.m01 * b.m12 + a.m02 * b.m22
    m10 := a.m10 * b.m00 + a.m11 * b.m10 + a.m12 * b.m20
    m11 := a.m10 * b.m01 + a.m11 * b.m11 + a.m12 * b.m21
    m12 := a.m10 * b.m02 + a.m11 * b.m12 + a.m12 * b.m22
    m20 := a.m20 * b.m00 + a.m21 * b.m10 + a.m22 * b.m20
    m21 := a.m20 * b.m01 + a.m21 * b.m11 + a.m22 * b.m21
    m22 := a.m20 * b.m02 + a.m21 * b.m12 + a.m22 * b.m22 }

/-- Matrix-vector product. -/
def Mat3.mulVec (a : Mat3) (v : Vec3) : Vec3 :=
  { x := a.m00 * v.x + a.m01 * v.y + a.m02 * v.z
    y := a.m10 * v.x + a.m11 * v.y + a.m12 * v.z
    z := a.m20 * v.x + a.m21 * v.y + a.m22 * v.z }

/-- Entrywise matrix sum. -/
def Mat3.add (a b : Mat3) : Mat3 :=
  { m00 := a.m00 + b.m00, m01 := a.m01 + b.m01, m02 := a.m02 + b.m02
    m10 := a.m10 + b.m10, m11 := a.m11 + b.m11, m12 := a.m12 + b.m12
    m20 := a.m20 + b.m20, m21 := a.m21 + b.m21, m22 := a.m22 + b.m22 }

/-- Scalar multiple of a matrix. -/
def Mat3.smul (a : Mat3) (c : Rat) : Mat3 :=
  { m00 := c * a.m00, m01 := c * a.m01, m02 := c * a.m02
    m10 := c * a.m10, m11 := c * a.m11, m12 := c * a.m12
    m20 := c * a.m20, m21 := c * a.m21, m22 := c * a.m22 }

/-- The zero matrix. -/
def Mat3.zero : Mat3 :=
  { m00 := 0, m01 := 0, m02 := 0, m10 := 0, m11 := 0, m12 := 0,
    m20 := 0, m21 := 0, m22 := 0 }

/-- Vector sum. -/
def Vec3.add (a b : Vec3) : Vec3 :=
  { x := a.x + b.x, y := a.y + b.y, z := a.z + b.z }

/-- Scalar multiple of a vector. -/
def Vec3.smul (v : Vec3) (c : Rat) : Vec3 :=
  { x := c * v.x, y := c * v.y, z := c * v.z }

/-- The zero vector. -/
def Vec3.zero : Vec3 := { x := 0, y := 0, z := 0 }

/-- Rigid-body transform: rotation matrix plus translation vector, as the
class `T` of affine_utils. -/
structure T where
  rots : Mat3
  trans : Vec3
deriving DecidableEq, Repr

/-- Modelled from the spec: `affine_utils.T.compose` is not under src/.
Section 4.3: rotation = A.rotation * B.rotation and
translation = A.rotation * B.translation + A.translation. -/
def T.compose (a b : T) : T :=
  { rots := a.rots.mul b.rots, trans := (a.rots.mulVec b.trans).add a.trans }

/-- Modelled from the spec: `affine_utils.T.apply` is not under src/.
Section 4.3: transform a point by the rotation, then translate. -/
def T.apply (t : T) (p : Vec3) : Vec3 :=
  (t.rots.mulVec p).add t.trans

/-- Modelled from the spec: `affine_utils.T.from_4x4` is not under src/.
Section 4.3: conversion from the homogeneous 4x4 representation, rotation in
the top-left 3x3 block, translation in the top of the last column. -/
def T.from_4x4 (m : Fin 4 → Fin 4 → Rat) : T :=
  { rots :=
      { m00 := m 0 0, m01 := m 0 1, m02 := m 0 2
        m10 := m 1 0, m11 := m 1 1, m12 := m 1 2
        m20 := m 2 0, m21 := m 2 1, m22 := m 2 2 }
    trans := { x := m 0 3, y := m 1 3, z := m 2 3 } }

/-- Scalar multiple of a transform: both the rotation entries and the
translation are scaled (the broadcast `t[..., None, :] * group_mask` of
feats.py line 289 acts on every tensor of the transform). -/
def T.smulQ (c : Rat) (t : T) : T :=
  { rots := t.rots.smul c, trans := t.trans.smul c }

/-- Componentwise sum of two transforms (`torch.sum` over the group axis of
feats.py line 293 acts on every tensor of the transform). -/
def T.addT (a b : T) : T :=
  { rots := a.rots.add b.rots, trans := a.trans.add b.trans }

/-- The all-zero transform. -/
def T.zeroT : T := { rots := Mat3.zero, trans := Vec3.zero }

/-- The rotation matrix built at feats.py lines 237-241 from one
(sin, cos) pair: rows (1,0,0), (0, cos, -sin), (0, sin, cos). -/
def rotXMat (sinA cosA : Rat) : Mat3 :=
  { m00 := 1, m01 := 0, m02 := 0
    m10 := 0, m11 := cosA, m12 := -sinA
    m20 := 0, m21 := sinA, m22 := cosA }

/-- The angle slots after the backbone prepend (feats.py lines 218-225):
slot 0 is the fixed (sin, cos) = (0, 1) backbone identity, slots 1-7 are the
7 predicted pairs. -/
def alphaWithBB (alpha : Fin 7 → Rat × Rat) (i : Fin 8) : Rat × Rat :=
  if h : i.val = 0 then (0, 1) else alpha ⟨i.val - 1, by omega⟩

/-- Source `torsion_angles_to_frames` (feats.py lines 204-266) for one
residue.  `default_4x4` is `rrgdf[aatype]`, the 8 default local 4x4 frames of
the residue type; `T(all_rots, None)` leaves the translation zero; the final
`T.concat` of `all_frames[..., :5]` with the three accumulated side-chain
frames is the `all_frames_to_bb` selector below. -/
def torsion_angles_to_frames (t : T) (alpha : Fin 7 → Rat × Rat)
    (default_4x4 : Fin 8 → Fin 4 → Fin 4 → Rat) : Fin 8 → T :=
  let default_t : Fin 8 → T := fun i => T.from_4x4 (default_4x4 i)
  let alpha8 := alphaWithBB alpha
  let all_rots : Fin 8 → T := fun i =>
    { rots := rotXMat (alpha8 i).1 (alpha8 i).2, trans := Vec3.zero }
  let all_frames : Fin 8 → T := fun i => (default_t i).compose (all_rots i)
  let chi1_frame_to_bb := all_frames 4
  let chi2_frame_to_bb := chi1_frame_to_bb.compose (all_frames 5)
  let chi3_frame_to_bb := chi2_frame_to_bb.compose (all_frames 6)
  let chi4_frame_to_bb := chi3_frame_to_bb.compose (all_frames 7)
  let all_frames_to_bb : Fin 8 → T := fun i =>
    if i.val < 5 then all_frames i
    else if i.val = 5 then chi2_frame_to_bb
    else if i.val = 6 then chi3_frame_to_bb
    else chi4_frame_to_bb
  fun i => t.compose (all_frames_to_bb i)

/-- The local (pre-chain) frame of each of the 8 slots: the default frame of
the slot composed with the x-axis rotation of its angle pair. -/
def localFrames (alpha : Fin 7 → Rat × Rat)
    (default_4x4 : Fin 8 → Fin 4 → Fin 4 → Rat) (i : Fin 8) : T :=
  (T.from_4x4 (default_4x4 i)).compose
    { rots := rotXMat (alphaWithBB alpha i).1 (alphaWithBB alpha i).2,
      trans := Vec3.zero }

/-- The kinematic-chain reading of the spec (section 4.3): slots 0-4 keep
their local frame, and each slot from 5 on composes the PREVIOUS accumulated
frame with its own local frame. -/
def chainFrames (af : Fin 8 → T) : Nat → T
  | 0 => af 0
  | n + 1 =>
      if n + 1 ≤ 4 then af ⟨(n + 1) % 8, by omega⟩
      else (chainFrames af n).compose (af ⟨(n + 1) % 8, by omega⟩)

/-- One-hot row over the 8 frame groups, as
`nn.functional.one_hot(g, num_classes=8)` (feats.py lines 284-286). -/
def oneHot8 (g : Nat) (k : Fin 8) : Rat :=
  if g = k.val then 1 else 0

/-- Sum of a family of 8 transforms, the reduce-sum over the group axis. -/
def sumT8 (f : Fin 8 → T) : T :=
  (f ⟨0, by omega⟩).addT ((f ⟨1, by omega⟩).addT ((f ⟨2, by omega⟩).addT
    ((f ⟨3, by omega⟩).addT ((f ⟨4, by omega⟩).addT ((f ⟨5, by omega⟩).addT
      ((f ⟨6, by omega⟩).addT (f ⟨7, by omega⟩)))))))

/-- Source `frames_and_literature_positions_to_atom14_pos` (feats.py lines
269-304) for one residue.  `default_frames` is consulted only for its group
axis length (`num_classes = default_frames.shape[-3] = 8`); `torch`
`one_hot` raises on an index outside `[0, 8)`, modelled by `none`.  The
broadcast product of `t[..., None, :]` with the one-hot group mask followed
by `map_tensor_fn(sum over dim=-1)` is the one-hot-weighted componentwise
sum of the 8 frames; the selected frame is applied to the literature
position and the result is zeroed by `atom_mask`. -/
def frames_and_literature_positions_to_atom14_pos
    (t : Fin 8 → T) (aatype : Nat)
    (default_frames : Nat → Fin 8 → Fin 4 → Fin 4 → Rat)
    (group_idx : Nat → Fin 14 → Nat)
    (atom_mask : Nat → Fin 14 → Rat)
    (lit_positions : Nat → Fin 14 → Vec3) : Option (Fin 14 → Vec3) :=
  let _default_4x4 := default_frames aatype
  if _h : ∀ s : Fin 14, group_idx aatype s < 8 then
    some (fun s =>
      let group_mask := oneHot8 (group_idx aatype s)
      let t_atoms_to_global := sumT8 (fun k => T.smulQ (group_mask k) (t k))
      (t_atoms_to_global.apply (lit_positions aatype s)).smul
        (atom_mask aatype s))
  else none

/-! ## feature_pipeline.py: configuration and top-level driver -/

/-- Configuration bundle handed to `make_data_config`: the `common` scope and
one mode-specific scope per mode name. -/
structure DataConfig where
  common : CommonCfg
  modes : String → ModeCfg

/-- Source `make_data_config` (feature_pipeline.py lines 34-53): deep-copy
the config (pure here), set the mode's `crop_size` to `num_res` when it is
`None`, and assemble the feature-name list: the unsupervised features, plus
the template features when `use_templates`, plus the supervised features
when the mode is supervised. -/
def make_data_config (config : DataConfig) (mode : String) (num_res : Nat) :
    DataConfig × List String :=
  let mode_cfg := config.modes mode
  let mode_cfg2 :=
    if mode_cfg.crop_size = none then
      { mode_cfg with crop_size := some num_res }
    else mode_cfg
  let cfg : DataConfig :=
    { config with
        modes := fun m => if m = mode then mode_cfg2 else config.modes m }
  let feature_names := config.common.unsupervised_features
    ++ (if config.common.use_templates then
          config.common.template_features else [])
    ++ (if (config.modes mode).supervised then
          config.common.supervised_features else [])
  (cfg, feature_names)

/-- Source `np_to_tensor_dict` (feature_pipeline.py lines 14-31): keep
exactly the entries whose key is among the requested feature names,
preserving order. -/
def np_to_tensor_dict (np_example : TensorDict) (features : List String) :
    TensorDict :=
  np_example.filter (fun kv => features.contains kv.1)

/-- Residue-count extraction of `np_example_to_features`
(feature_pipeline.py line 63): `num_res = int(np_example[seq_length][0])`.
A missing or empty `seq_length` is a Python error, modelled by `none`. -/
def numResFromExample (np_example : TensorDict) : Option Nat :=
  match dictLookup np_example "seq_length" with
  | none => none
  | some t =>
    match t.data with
    | [] => none
    | v :: _ => some v.floor.toNat

/-- The `deletion_matrix_int` rename of `np_example_to_features`
(feature_pipeline.py lines 68-71): pop the integer deletion matrix and
re-insert it (as floats) under `deletion_matrix`; absent, leave the example
unchanged. -/
def renameDeletionMatrix (np_example : TensorDict) : TensorDict :=
  match dictLookup np_example "deletion_matrix_int" with
  | some dm =>
      dictSet (dictErase np_example "deletion_matrix_int")
        "deletion_matrix" dm
  | none => np_example

/-- Source `np_example_to_features` (feature_pipeline.py lines 56-90),
parametric over the two transform lists used by
`process_tensors_from_config` (the `data_transforms` bodies are not under
src/).  The residue count from `seq_length` feeds `make_data_config` (a
missing key is a KeyError, an empty array an IndexError, both collapsed to
one error value here); a `deletion_matrix_int` entry is popped and
re-inserted as `deletion_matrix`; `batch_mode` writes `use_clamped_fape` as
1.0 for `clamped` and 0.0 for `unclamped`; the example is then filtered to
the feature names and handed to the pipeline. -/
def np_example_to_features
    (nonensembledFns ensembledFns : List (TensorDict → TensorDict))
    (config : DataConfig) (mode : String) (batch_mode : String)
    (np_example : TensorDict) : Except String TensorDict :=
  match numResFromExample np_example with
  | none => Except.error ("KeyError: " ++ "seq_length")
  | some num_res =>
      let cfgNames := make_data_config config mode num_res
      let cfg := cfgNames.1
      let feature_names := cfgNames.2
      let ex1 := renameDeletionMatrix np_example
      let ex2 :=
        if batch_mode = "clamped" then
          dictSet ex1 "use_clamped_fape" (scalarT 1)
        else if batch_mode = "unclamped" then
          dictSet ex1 "use_clamped_fape" (scalarT 0)
        else ex1
      let tensor_dict := np_to_tensor_dict ex2 feature_names
      process_tensors_from_config nonensembledFns ensembledFns
        ((cfg.modes mode).num_ensemble) cfg.common.num_recycle
        cfg.common.resample_msa_in_recycling tensor_dict

/-- Modelled from the spec: the configuration module is not under src/.
Spec section 3 enumerates the options and the well-known feature names: the
unsupervised features are the non-template input names, the template
features are the template-prefixed names, and the supervised features
include `use_clamped_fape` (the eval mode is supervised, which is how
`use_clamped_fape` reaches the tensor dictionary). -/
def evalCommonCfg : CommonCfg :=
  { use_templates := false
    use_template_torsion_angles := false
    reduce_msa_clusters_by_max_templates := false
    max_extra_msa := 1024
    resample_msa_in_recycling := false
    num_recycle := 3
    masked_msa_present := true
    msa_cluster_features := true
    unsupervised_features :=
      ["aatype", "between_segment_residues", "deletion_matrix",
       "domain_name", "msa", "num_alignments", "residue_index",
       "seq_length", "sequence"]
    template_features :=
      ["template_aatype", "template_all_atom_masks",
       "template_all_atom_positions", "template_domain_names",
       "template_sequence", "template_sum_probs"]
    supervised_features :=
      ["all_atom_mask", "all_atom_positions", "resolution",
       "use_clamped_fape"] }

/-- Modelled from the spec: the eval-mode scope, with one ensemble member
and no fixed-size cropping tail (spec sections 3 and 4.2). -/
def evalModeCfg : ModeCfg :=
  { crop_size := none
    supervised := true
    fixed_size := false
    max_msa_clusters := 128
    max_templates := 4
    subsample_templates := false
    masked_msa_replace_fraction := 15 / 100
    num_ensemble := 1 }

/-- The modelled configuration used by the eval scenarios: every mode name
resolves to the eval scope. -/
def evalDataConfig : DataConfig :=
  { common := evalCommonCfg, modes := fun _ => evalModeCfg }

/-! ## Name resolution inside `build_msa_feat` (feats.py lines 163-201) -/

/-- Global names bound in the module `openfold/utils/feats.py`: the imports
of lines 16-28 and the module-level function definitions.  Python resolves a
function body's global names against this set at call time. -/
def featsModuleGlobals : List String :=
  ["np", "torch", "nn", "Dict", "rc", "T", "batched_gather", "one_hot",
   "tree_map", "tensor_tree_map", "pseudo_beta_fn", "atom14_to_atom37",
   "build_template_angle_feat", "build_template_pair_feat",
   "build_extra_msa_feat", "build_msa_feat", "torsion_angles_to_frames",
   "frames_and_literature_positions_to_atom14_pos"]

/-- Resolution of a global name against the module environment: an unbound
name raises a `NameError`. -/
def resolveGlobal (n : String) : Except String Unit :=
  if featsModuleGlobals.contains n then Except.ok ()
  else Except.error ("NameError: " ++ n)

/-- Python `batch[k]`: a missing key raises a `KeyError`. -/
def getItem (d : TensorDict) (k : String) : Except String Tensor :=
  match dictLookup d k with
  | some v => Except.ok v
  | none => Except.error ("KeyError: " ++ k)

/-- Model of `nn.functional.one_hot`: the last axis is expanded to
`numClasses` indicator entries. -/
def oneHotT (numClasses : Nat) (t : Tensor) : Tensor :=
  { shape := t.shape ++ [numClasses]
    data := t.data.flatMap (fun v =>
      (List.range numClasses).map (fun j => if ((j : Rat) = v) then 1 else 0)) }

/-- Last-axis length of a tensor (1 for a scalar). -/
def Tensor.lastDim (t : Tensor) : Nat := t.shape.getLast?.getD 1

/-- Number of rows when a tensor is viewed as rows of its last axis. -/
def Tensor.rowCount (t : Tensor) : Nat := prodShape t.shape.dropLast

/-- Model of `torch.cat(ts, dim=-1)` for tensors agreeing on every axis but
the last: rows are concatenated entrywise. -/
def concatLast (ts : List Tensor) : Tensor :=
  match ts with
  | [] => { shape := [], data := [] }
  | t0 :: _ =>
      { shape := t0.shape.dropLast
          ++ [ts.foldr (fun t acc => t.lastDim + acc) 0]
        data := (List.range t0.rowCount).flatMap (fun r =>
          ts.flatMap (fun t => (t.data.drop (r * t.lastDim)).take t.lastDim)) }

/-- Entrywise division of a tensor by a scalar. -/
def tDivScalar (t : Tensor) (c : Rat) : Tensor :=
  { shape := t.shape, data := t.data.map (fun v => v / c) }

/-- Entrywise product of a tensor with a scalar. -/
def tScale (t : Tensor) (c : Rat) : Tensor :=
  { shape := t.shape, data := t.data.map (fun v => v * c) }

/-- Entrywise map of a real function over a tensor. -/
def tMap (f : Rat → Rat) (t : Tensor) : Tensor :=
  { shape := t.shape, data := t.data.map f }

/-- Source `build_msa_feat` (feats.py lines 163-201) with Python name
resolution made explicit: every global name the body reads is resolved
against the module environment of feats.py in evaluation order.
`atanModel` and `piModel` stand for the transcendental `atan` and `pi`
(their values never reach a result: line 177 evaluates `2. / math.pi` right
after `torch.atan(batch[deletion_matrix] / 3.)`, and `math` is not among
the module globals, so a `NameError` is raised there, before the optional
cluster-profile branch of lines 185-191, before the `protein` membership
test of line 193, and before the returns of lines 199-201). -/
def build_msa_feat (atanModel : Rat → Rat) (piModel : Rat)
    (batch : TensorDict) : Except String TensorDict := do
  let has_break ← getItem batch "between_segment_residues"
  let _ ← resolveGlobal "nn"
  let aat ← getItem batch "aatype"
  let aatype_1hot := oneHotT 21 aat
  let target_feat := [has_break.unsqueezeTrail, aatype_1hot]
  let _ ← resolveGlobal "nn"
  let msaT ← getItem batch "msa"
  let msa_1hot := oneHotT 23 msaT
  let has_deletion ← getItem batch "deletion_matrix"
  let _ ← resolveGlobal "torch"
  let dm ← getItem batch "deletion_matrix"
  let atanPart := tMap atanModel (tDivScalar dm 3)
  let _ ← resolveGlobal "math"
  let deletion_value := tScale atanPart (2 / piModel)
  let msa_feat := [msa_1hot, has_deletion.unsqueezeTrail,
    deletion_value.unsqueezeTrail]
  let msa_feat2 ←
    if (dictLookup batch "cluster_profile").isSome then do
      let _ ← resolveGlobal "tf"
      let cdm ← getItem batch "cluster_deletion_mean"
      let _ ← resolveGlobal "np"
      let deletion_mean_value := tScale (tMap atanModel (tDivScalar cdm 3))
        (2 / piModel)
      let cp ← getItem batch "cluster_profile"
      pure (msa_feat ++ [cp, deletion_mean_value.unsqueezeTrail])
    else pure msa_feat
  let _ ← resolveGlobal "protein"
  let batch2 ← pure batch
  let _ ← resolveGlobal "torch"
  let batch3 := dictSet batch2 "msa_feat" (concatLast msa_feat2)
  let _ ← resolveGlobal "torch"
  let batch4 := dictSet batch3 "target_feat" (concatLast target_feat)
  pure batch4

/-! ## Helper lemmas on dictionaries, composition and Option.mapM -/

theorem dictLookup_set_self (d : TensorDict) (k : String) (v : Tensor) :
    dictLookup (dictSet d k v) k = some v := by
  induction d with
  | nil => simp [dictSet, dictLookup]
  | cons a rest ih =>
      obtain ⟨k2, v2⟩ := a
      by_cases h : k2 = k
      · simp [dictSet, dictLookup, h]
      · simp [dictSet, dictLookup, h, ih]

theorem dictLookup_set_ne (d : TensorDict) (k q : String) (v : Tensor)
    (h : q ≠ k) : dictLookup (dictSet d k v) q = dictLookup d q := by
  have hkq : ¬ k = q := fun e => h e.symm
  induction d with
  | nil => simp [dictSet, dictLookup, hkq]
  | cons a rest ih =>
      obtain ⟨k2, v2⟩ := a
      by_cases h2 : k2 = k
      · subst h2
        simp [dictSet, dictLookup, hkq]
      · simp [dictSet, dictLookup, h2, ih]

theorem dictKeys_set_subset (d : TensorDict) (k : String) (v : Tensor) :
    ∀ q ∈ dictKeys (dictSet d k v), q = k ∨ q ∈ dictKeys d := by
  induction d with
  | nil =>
      intro q hq
      simp [dictSet, dictKeys] at hq
      exact Or.inl hq
  | cons a rest ih =>
      obtain ⟨k2, v2⟩ := a
      intro q hq
      by_cases h2 : k2 = k
      · subst h2
        simp [dictSet, dictKeys] at hq ⊢
        tauto
      · simp only [dictSet, if_neg h2] at hq
        simp only [dictKeys, List.map_cons, List.mem_cons] at hq ⊢
        rcases hq with h | h
        · exact Or.inr (Or.inl h)
        · rcases ih q h with h3 | h3
          · exact Or.inl h3
          · exact Or.inr (Or.inr h3)

theorem dictKeys_mapValues (f : Tensor → Tensor) (d : TensorDict) :
    dictKeys (dictMapValues f d) = dictKeys d := by
  simp only [dictMapValues, dictKeys, List.map_map]
  rfl

theorem dictLookup_mapValues (f : Tensor → Tensor) (d : TensorDict)
    (k : String) :
    dictLookup (dictMapValues f d) k = (dictLookup d k).map f := by
  induction d with
  | nil => rfl
  | cons a rest ih =>
      obtain ⟨k2, v2⟩ := a
      simp only [dictMapValues, List.map_cons] at ih ⊢
      by_cases h : k2 = k <;> simp [dictLookup, h, ih]

theorem composeFns_keyTransparent (k : String) :
    ∀ fns : List (TensorDict → TensorDict),
      (∀ f ∈ fns, ∀ d, dictLookup (f d) k = dictLookup d k) →
      ∀ d, dictLookup (composeFns fns d) k = dictLookup d k := by
  intro fns
  induction fns with
  | nil => intro _ d; rfl
  | cons f rest ih =>
      intro h d
      have e : composeFns (f :: rest) d = composeFns rest (f d) := rfl
      rw [e, ih (fun g hg => h g (List.mem_cons_of_mem f hg)) (f d)]
      exact h f (List.mem_cons_self f rest) d

theorem composeFns_preserves (P : TensorDict → Prop) :
    ∀ fns : List (TensorDict → TensorDict),
      (∀ f ∈ fns, ∀ d, P d → P (f d)) →
      ∀ d, P d → P (composeFns fns d) := by
  intro fns
  induction fns with
  | nil => intro _ d hd; exact hd
  | cons f rest ih =>
      intro h d hd
      have e : composeFns (f :: rest) d = composeFns rest (f d) := rfl
      rw [e]
      exact ih (fun g hg => h g (List.mem_cons_of_mem f hg)) (f d)
        (h f (List.mem_cons_self f rest) d hd)

theorem optionTraverse_none {α β : Type} (g : α → Option β) :
    ∀ (l : List α) (a : α), a ∈ l → g a = none →
      optionTraverse g l = none := by
  intro l
  induction l with
  | nil => intro a ha; cases ha
  | cons b t ih =>
      intro a ha hga
      rcases List.mem_cons.mp ha with rfl | hat
      · simp [optionTraverse, hga]
      · cases hb : g b
        · simp [optionTraverse, hb]
        · simp [optionTraverse, hb, ih a hat hga]

theorem optionTraverse_isSome {α β : Type} (g : α → Option β) :
    ∀ l : List α, (∀ a ∈ l, (g a).isSome = true) →
      ∃ r, optionTraverse g l = some r := by
  intro l
  induction l with
  | nil => intro _; exact ⟨[], rfl⟩
  | cons b t ih =>
      intro h
      obtain ⟨v, hv⟩ :=
        Option.isSome_iff_exists.mp (h b (List.mem_cons_self b t))
      obtain ⟨r, hr⟩ := ih (fun a ha => h a (List.mem_cons_of_mem b ha))
      exact ⟨v :: r, by simp [optionTraverse, hv, hr]⟩

theorem optionTraverse_fst {β : Type} (g : String → Option (String × β)) :
    ∀ l : List String,
      (∀ k ∈ l, ∃ v, g k = some (k, v)) →
      ∃ r, optionTraverse g l = some r ∧ r.map Prod.fst = l := by
  intro l
  induction l with
  | nil => intro _; exact ⟨[], rfl, rfl⟩
  | cons b t ih =>
      intro h
      obtain ⟨v, hv⟩ := h b (List.mem_cons_self b t)
      obtain ⟨r, hr, hfst⟩ := ih (fun k hk => h k (List.mem_cons_of_mem b hk))
      refine ⟨(b, v) :: r, ?_, by simp [hfst]⟩
      simp [optionTraverse, hv, hr]

/-! ## Claim theorems C1 - C5 -/

/-- C1: in `build_template_pair_feat` the code builds `upper` from
`lower[:-1]`, so `upper[5] = lower[5]` and distogram bin 5 is inactive for
EVERY pair of pseudo-beta points with `min_bin = 3.25`, `max_bin = 50.75`,
`no_bins = 39`; in particular at squared distance `lower[5] + 1/1000`
(with `lower[5] = 90.25`), where the claimed binning — strict lower edge,
next bin's lower edge as the upper edge — would set bin 5 active. -/
theorem c1_distogram_bin5_never_active :
    (∀ p q : Vec3, dgramBin 3.25 50.75 39 (10 ^ 8) (sqDist p q) 5 = false)
    ∧ dgramLower 3.25 50.75 39 5 = 90.25
    ∧ dgramBin 3.25 50.75 39 (10 ^ 8) (90.25 + 1 / 1000) 5 = false
    ∧ dgramBinPerSpec 3.25 50.75 39 (10 ^ 8) (90.25 + 1 / 1000) 5 = true := by
  have hU : dgramUpper 3.25 50.75 39 (10 ^ 8) 5 = dgramLower 3.25 50.75 39 5 := by
    simp [dgramUpper]
  refine ⟨?_, ?_, ?_, ?_⟩
  · intro p q
    by_cases h : dgramLower 3.25 50.75 39 5 < sqDist p q
    · have h2 : ¬ (sqDist p q < dgramLower 3.25 50.75 39 5) :=
        not_lt.mpr (le_of_lt h)
      simp [dgramBin, hU, h2]
    · simp [dgramBin, hU, h]
  · norm_num [dgramLower, linspace]
  · simp [dgramBin, hU]
    norm_num [dgramLower, linspace]
  · simp [dgramBinPerSpec]
    norm_num [dgramLower, linspace]

/-- C2: the claimed unit-trailing-axis dictionary is never produced: with a
static `num_ensemble = 1` the controller reaches
`tree.map_structure(lambda x: x[None], tensors_0)` (input_pipeline.py line
140), whose global `tree` is unbound in the module, so the invocation
raises `NameError: tree` and returns no dictionary at all — in particular
not the result of one ensembled application with a unit trailing axis that
the claim requires (and the line, were `tree` bound, maps `x[None]`, a unit
LEADING axis, not a trailing one). -/
theorem c2_single_ensemble_branch_raises_name_error :
    process_tensors_from_config [] [] 1 0 false
        [("x", { shape := [2], data := [1, 2] })]
      = Except.error ("NameError: " ++ "tree")
    ∧ ∀ r, process_tensors_from_config [] [] 1 0 false
        [("x", { shape := [2], data := [1, 2] })] ≠ Except.ok r := by
  have h1 : process_tensors_from_config [] [] 1 0 false
      [("x", { shape := [2], data := [1, 2] })]
      = Except.error ("NameError: " ++ "tree") := rfl
  refine ⟨h1, ?_⟩
  intro r hr
  rw [h1] at hr
  exact Except.noConfusion hr

/-- C3: reproducibility across two invocations fails: each invocation of the
ensembled pipeline construction draws a fresh crop seed from ambient entropy
(`seed=torch.Generator().seed()`, input_pipeline.py line 96) instead of a
seed passed into the pipeline, so two invocations on the same dictionary
whose ambient draws are 0 and 1 (crop size 1 of a length-2 axis) produce
different tensors. -/
theorem c3_ambient_seed_breaks_reproducibility :
    wrap_ensemble_fn_run true 1 0 [("msa", { shape := [2], data := [3, 4] })] 0
      ≠ wrap_ensemble_fn_run true 1 1
          [("msa", { shape := [2], data := [3, 4] })] 0 := by
  decide

/-- C4 counterexample: `map_fn` performs no key-set assertion before
stacking: with a first per-ensemble dictionary binding only `a` and a second
binding `a` and `b`, the key sets differ and yet the stack succeeds (no
fatal error) and silently drops `b`. -/
theorem c4_no_assert_counterexample :
    dictKeys [("a", scalarT 2), ("b", scalarT 3)] ≠ dictKeys [("a", scalarT 1)]
    ∧ map_fn (fun i => if i = 0 then [("a", scalarT 1)]
        else [("a", scalarT 2), ("b", scalarT 3)]) [0, 1]
      = some [("a", { shape := [2], data := [1, 2] })] := by
  constructor
  · decide
  · rfl

/-- C4 (amended): `map_fn` stacks exactly the keys of the FIRST
per-ensemble dictionary: when every later dictionary binds all keys of the
first, stacking succeeds and the result's key list is the first
dictionary's key list (keys appearing only in later dictionaries are
silently dropped); when some key of the first is missing from a later
dictionary, the per-key lookup fails (a KeyError) — there is no up-front
assertion of equal key sets. -/
theorem c4_map_fn_uses_first_keys (f : Nat → TensorDict) (x0 : Nat)
    (xs : List Nat) :
    ((∀ k ∈ dictKeys (f x0), ∀ d ∈ (x0 :: xs).map f,
        (dictLookup d k).isSome = true) →
      ∃ r, map_fn f (x0 :: xs) = some r ∧ dictKeys r = dictKeys (f x0))
    ∧ (∀ k ∈ dictKeys (f x0), (∃ d ∈ (x0 :: xs).map f, dictLookup d k = none) →
      map_fn f (x0 :: xs) = none) := by
  have e : map_fn f (x0 :: xs) = optionTraverse (fun feat =>
      (optionTraverse (fun d => dictLookup d feat) (f x0 :: xs.map f)).map
        (fun ts => (feat, stackLast ts))) (dictKeys (f x0)) := rfl
  constructor
  · intro h
    rw [e]
    apply optionTraverse_fst
    intro k hk
    obtain ⟨ts, hts⟩ := optionTraverse_isSome
      (fun d => dictLookup d k) (f x0 :: xs.map f)
      (fun d hd => h k hk d (by simpa using hd))
    exact ⟨stackLast ts, by simp [hts]⟩
  · intro k hk hex
    obtain ⟨d, hd, hnone⟩ := hex
    rw [e]
    apply optionTraverse_none _ _ k hk
    have hin : optionTraverse (fun d2 => dictLookup d2 k)
        (f x0 :: xs.map f) = none :=
      optionTraverse_none _ _ d (by simpa using hd) hnone
    simp [hin]

/-- C4 (amended) witness: a success case whose result keys are the first
dictionary's keys, and a failure case where a key of the first dictionary is
missing from the second. -/
theorem c4_map_fn_uses_first_keys_witness :
    (∃ r, map_fn (fun i => if i = 0 then [("a", scalarT 1)]
        else [("a", scalarT 2), ("b", scalarT 3)]) [0, 1] = some r
      ∧ dictKeys r = dictKeys [("a", scalarT 1)])
    ∧ map_fn (fun i => if i = 0 then [("a", scalarT 1)] else []) [0, 1]
      = none := by
  constructor
  · exact (c4_map_fn_uses_first_keys
      (fun i => if i = 0 then [("a", scalarT 1)]
        else [("a", scalarT 2), ("b", scalarT 3)]) 0 [1]).1 (by decide)
  · exact (c4_map_fn_uses_first_keys
      (fun i => if i = 0 then [("a", scalarT 1)] else []) 0 [1]).2
      "a" (by decide) ⟨[], by decide, by decide⟩

/-- C5: whenever the masked-MSA configuration is present and MSA cluster
features are enabled, the ensembled transform list begins with `sample_msa`,
then `make_masked_msa`, then `nearest_neighbor_clusters`, then
`summarize_clusters`, and none of these four MSA-stage transforms occurs
again later: sampling precedes masking, and masking strictly precedes both
clustering transforms. -/
theorem c5_masked_msa_before_clustering (cc : CommonCfg) (mc : ModeCfg)
    (h1 : cc.masked_msa_present = true) (h2 : cc.msa_cluster_features = true) :
    ∃ (pad : Int) (tail : List Tfm),
      ensembled_transform_fns cc mc
        = Tfm.sample_msa pad true
          :: Tfm.make_masked_msa mc.masked_msa_replace_fraction
          :: Tfm.nearest_neighbor_clusters
          :: Tfm.summarize_clusters :: tail
      ∧ ∀ t ∈ tail, isMsaStage t = false := by
  refine ⟨(if cc.reduce_msa_clusters_by_max_templates then
      (mc.max_msa_clusters : Int) - (mc.max_templates : Int)
    else (mc.max_msa_clusters : Int)),
    ((if cc.max_extra_msa ≠ 0 then [Tfm.crop_extra_msa cc.max_extra_msa]
        else [Tfm.delete_extra_msa])
      ++ [Tfm.make_msa_feat]
      ++ (if mc.fixed_size then
            [Tfm.select_feat, Tfm.random_crop, Tfm.make_fixed_size]
          else [Tfm.crop_templates mc.max_templates])), ?_, ?_⟩
  · simp [ensembled_transform_fns, h1, h2]
  · intro t ht
    simp only [List.mem_append] at ht
    rcases ht with (h | h) | h
    · split_ifs at h <;> simp only [List.mem_singleton] at h <;> subst h <;> rfl
    · simp only [List.mem_singleton] at h
      subst h
      rfl
    · split_ifs at h
      · rcases (by simpa using h : t = Tfm.select_feat ∨ t = Tfm.random_crop
          ∨ t = Tfm.make_fixed_size) with rfl | rfl | rfl <;> rfl
      · simp only [List.mem_singleton] at h
        subst h
        rfl

/-- C5 witness: the ordering at the concrete modelled eval configuration,
whose masked-MSA entry is present and whose cluster features are enabled. -/
theorem c5_masked_msa_before_clustering_witness :
    ∃ (pad : Int) (tail : List Tfm),
      ensembled_transform_fns evalCommonCfg evalModeCfg
        = Tfm.sample_msa pad true
          :: Tfm.make_masked_msa evalModeCfg.masked_msa_replace_fraction
          :: Tfm.nearest_neighbor_clusters
          :: Tfm.summarize_clusters :: tail
      ∧ ∀ t ∈ tail, isMsaStage t = false :=
  c5_masked_msa_before_clustering evalCommonCfg evalModeCfg rfl rfl

/-! ## Claim theorems C6 and C7, with frame-algebra support lemmas -/

theorem T_smulQ_one (a : T) : T.smulQ 1 a = a := by
  cases a with
  | mk r tr =>
      cases r
      cases tr
      simp [T.smulQ, Mat3.smul, Vec3.smul]

theorem T_smulQ_zero (a : T) : T.smulQ 0 a = T.zeroT := by
  cases a with
  | mk r tr =>
      cases r
      cases tr
      simp [T.smulQ, Mat3.smul, Vec3.smul, T.zeroT, Mat3.zero, Vec3.zero]

theorem T_addT_zero (a : T) : T.addT a T.zeroT = a := by
  cases a with
  | mk r tr =>
      cases r
      cases tr
      simp [T.addT, Mat3.add, Vec3.add, T.zeroT, Mat3.zero, Vec3.zero]

theorem T_zeroT_addT (a : T) : T.addT T.zeroT a = a := by
  cases a with
  | mk r tr =>
      cases r
      cases tr
      simp [T.addT, Mat3.add, Vec3.add, T.zeroT, Mat3.zero, Vec3.zero]

theorem Vec3_smul_zero (v : Vec3) : v.smul 0 = Vec3.zero := by
  cases v
  simp [Vec3.smul, Vec3.zero]

/-- Reduce-summing the one-hot-masked family selects exactly the frame of
the hot group. -/
theorem sumT8_oneHot (f : Fin 8 → T) (g : Nat) (h : g < 8) :
    sumT8 (fun k => T.smulQ (oneHot8 g k) (f k)) = f ⟨g, h⟩ := by
  interval_cases g <;>
    · simp only [sumT8, oneHot8]
      norm_num [T_smulQ_one, T_smulQ_zero, T_zeroT_addT, T_addT_zero]

/-- Row sum of the one-hot encoding over the 8 frame groups. -/
def sumOneHot8 (g : Nat) : Rat :=
  oneHot8 g ⟨0, by omega⟩ + oneHot8 g ⟨1, by omega⟩ + oneHot8 g ⟨2, by omega⟩
    + oneHot8 g ⟨3, by omega⟩ + oneHot8 g ⟨4, by omega⟩
    + oneHot8 g ⟨5, by omega⟩ + oneHot8 g ⟨6, by omega⟩
    + oneHot8 g ⟨7, by omega⟩

/-- C6: `torsion_angles_to_frames` prepends the fixed (sin, cos) = (0, 1)
backbone pair to make 8 slots, builds x-axis rotations with rows (1,0,0),
(0,c,-s),(0,s,c), composes each with its default local frame, and its result
is the kinematic-chain reading: slots 0-4 keep their local frame while slots
5-7 (chi2..chi4) each compose the PREVIOUS accumulated frame with their own
local frame, everything finally composed with the global backbone frame. -/
theorem c6_torsion_frames_follow_chain (t : T) (alpha : Fin 7 → Rat × Rat)
    (default_4x4 : Fin 8 → Fin 4 → Fin 4 → Rat) :
    (∀ i : Fin 8, torsion_angles_to_frames t alpha default_4x4 i
        = t.compose (chainFrames (localFrames alpha default_4x4) i.val))
    ∧ alphaWithBB alpha 0 = (0, 1)
    ∧ (∀ s c : Rat, rotXMat s c =
        { m00 := 1, m01 := 0, m02 := 0, m10 := 0, m11 := c, m12 := -s,
          m20 := 0, m21 := s, m22 := c }) := by
  refine ⟨?_, rfl, fun s c => rfl⟩
  intro i
  fin_cases i <;> rfl

/-- C7: in `frames_and_literature_positions_to_atom14_pos`, for every
residue type and every atom slot with an in-range group index, the one-hot
selection over the 8 frame groups sums to exactly one, the reduce-sum over
the group axis picks exactly the owning frame (a partition, never an
overlap), and the predicted position of a slot whose `atom_mask` entry is 0
is zeroed. -/
theorem c7_one_hot_selects_exactly_one (t : Fin 8 → T) (aatype : Nat)
    (default_frames : Nat → Fin 8 → Fin 4 → Fin 4 → Rat)
    (group_idx : Nat → Fin 14 → Nat)
    (atom_mask : Nat → Fin 14 → Rat)
    (lit_positions : Nat → Fin 14 → Vec3)
    (h : ∀ s : Fin 14, group_idx aatype s < 8) :
    ∃ res, frames_and_literature_positions_to_atom14_pos t aatype
        default_frames group_idx atom_mask lit_positions = some res
      ∧ (∀ s : Fin 14, sumOneHot8 (group_idx aatype s) = 1)
      ∧ (∀ s : Fin 14, res s
          = ((t ⟨group_idx aatype s, h s⟩).apply
              (lit_positions aatype s)).smul (atom_mask aatype s))
      ∧ (∀ s : Fin 14, atom_mask aatype s = 0 → res s = Vec3.zero) := by
  refine ⟨fun s =>
      ((sumT8 (fun k => T.smulQ (oneHot8 (group_idx aatype s) k) (t k))).apply
        (lit_positions aatype s)).smul (atom_mask aatype s), ?_, ?_, ?_, ?_⟩
  · simp only [frames_and_literature_positions_to_atom14_pos]
    rw [dif_pos h]
  · intro s
    have hs := h s
    interval_cases hG : (group_idx aatype s) <;>
      norm_num [sumOneHot8, oneHot8]
  · intro s
    simp only [sumT8_oneHot t (group_idx aatype s) (h s)]
  · intro s hm
    simp only [hm, Vec3_smul_zero]

/-- C7 witness: concrete frames, a constant group index 3, mask 1 and a
fixed literature position. -/
theorem c7_one_hot_selects_exactly_one_witness :
    ∃ res, frames_and_literature_positions_to_atom14_pos
        (fun _ => { rots := Mat3.zero, trans := { x := 1, y := 2, z := 3 } })
        0 (fun _ _ _ _ => 0) (fun _ _ => 3) (fun _ _ => 1)
        (fun _ _ => { x := 4, y := 5, z := 6 }) = some res
      ∧ (∀ _s : Fin 14, sumOneHot8 3 = 1)
      ∧ (∀ s : Fin 14, res s
          = ((({ rots := Mat3.zero,
                 trans := { x := 1, y := 2, z := 3 } } : T).apply
              { x := 4, y := 5, z := 6 })).smul 1)
      ∧ (∀ s : Fin 14, (1 : Rat) = 0 → res s = Vec3.zero) :=
  c7_one_hot_selects_exactly_one
    (fun _ => { rots := Mat3.zero, trans := { x := 1, y := 2, z := 3 } })
    0 (fun _ _ _ _ => 0) (fun _ _ => 3) (fun _ _ => 1)
    (fun _ _ => { x := 4, y := 5, z := 6 })
    (fun _s => by norm_num)

/-! ## Claim theorems C8 and C9, with feature-pipeline support lemmas -/

theorem np_to_tensor_dict_keys_subset (ex : TensorDict)
    (names : List String) :
    ∀ k ∈ dictKeys (np_to_tensor_dict ex names), k ∈ names := by
  intro k hk
  simp only [np_to_tensor_dict, dictKeys, List.mem_map] at hk
  obtain ⟨kv, hkv, rfl⟩ := hk
  have hf := List.of_mem_filter hkv
  simpa using hf

theorem dictLookup_np_to_tensor_dict (ex : TensorDict) (names : List String)
    (k : String) (hk : k ∈ names) :
    dictLookup (np_to_tensor_dict ex names) k = dictLookup ex k := by
  induction ex with
  | nil => rfl
  | cons a rest ih =>
      obtain ⟨k2, v2⟩ := a
      by_cases h2 : k2 = k
      · subst h2
        simp [np_to_tensor_dict, List.filter_cons, hk, dictLookup]
      · by_cases h3 : names.contains k2 = true <;>
          simp_all [np_to_tensor_dict, List.filter_cons, dictLookup, h2]

/-- Whether the character list of `pre` heads the character list of `s`
(a computable rendering of a string prefix test). -/
def strStartsWith (s pre : String) : Bool :=
  pre.data.isPrefixOf s.data

/-- No template-prefixed key occurs in the dictionary. -/
def NoTemplateKeys (d : TensorDict) : Prop :=
  ∀ k ∈ dictKeys d, strStartsWith k "template_" = false

/-- C8: `make_data_config` leaves a mode's `crop_size` unchanged when it is
set and defaults it to the residue count `num_res` when it is unset
(`np_example_to_features` reads that count from `seq_length[0]`, see
`numResFromExample`). -/
theorem c8_crop_size_defaults_to_num_res (config : DataConfig)
    (mode : String) (num_res : Nat) :
    ((make_data_config config mode num_res).1.modes mode).crop_size
      = some (((config.modes mode).crop_size).getD num_res) := by
  cases hc : (config.modes mode).crop_size <;>
    simp [make_data_config, hc]

/-- C9: the scenario's claimed output dictionary never materializes: the
driver prepares the tensor dictionary as the claim describes — for batch
mode `unclamped` it carries `use_clamped_fape` holding 0.0 (1.0 for
`clamped`) and no template-prefixed key (shown below at the scenario input
with `seq_length = [5]` under the modelled eval configuration,
`use_templates = false`) — but with the eval mode's single ensemble member
the controller then evaluates `tree.map_structure` (input_pipeline.py line
140), whose global `tree` is unbound in the module, so
`np_example_to_features` raises `NameError: tree` for EVERY example and
transform lists and returns no output dictionary for either batch mode. -/
theorem c9_pipeline_raises_before_output
    (nonens ens : List (TensorDict → TensorDict)) (ex : TensorDict)
    (s : Tensor) (v : Rat) (vs : List Rat)
    (hseq : dictLookup ex "seq_length" = some s)
    (hdata : s.data = v :: vs) :
    np_example_to_features nonens ens evalDataConfig "eval" "unclamped" ex
      = Except.error ("NameError: " ++ "tree")
    ∧ np_example_to_features nonens ens evalDataConfig "eval" "clamped" ex
      = Except.error ("NameError: " ++ "tree")
    ∧ (∃ tv, dictLookup (np_to_tensor_dict
          (dictSet (renameDeletionMatrix
            [("seq_length", { shape := [1], data := [5] })])
            "use_clamped_fape" (scalarT 0))
          (make_data_config evalDataConfig "eval" 5).2) "use_clamped_fape"
        = some tv ∧ tv.data = [0])
    ∧ (∃ tv2, dictLookup (np_to_tensor_dict
          (dictSet (renameDeletionMatrix
            [("seq_length", { shape := [1], data := [5] })])
            "use_clamped_fape" (scalarT 1))
          (make_data_config evalDataConfig "eval" 5).2) "use_clamped_fape"
        = some tv2 ∧ tv2.data = [1])
    ∧ NoTemplateKeys (np_to_tensor_dict
          (dictSet (renameDeletionMatrix
            [("seq_length", { shape := [1], data := [5] })])
            "use_clamped_fape" (scalarT 0))
          (make_data_config evalDataConfig "eval" 5).2) := by
  obtain ⟨sh, sd⟩ := s
  have hdata2 : sd = v :: vs := hdata
  subst hdata2
  have hnum : numResFromExample ex = some v.floor.toNat := by
    unfold numResFromExample
    rw [hseq]
  refine ⟨?_, ?_, ⟨scalarT 0, by decide, rfl⟩, ⟨scalarT 1, by decide, rfl⟩, ?_⟩
  · unfold np_example_to_features
    rw [hnum]
    rfl
  · unfold np_example_to_features
    rw [hnum]
    rfl
  · unfold NoTemplateKeys
    decide

/-- C9 witness: every hypothesis discharged at the scenario example with
`seq_length = [5]` and the empty transform lists. -/
theorem c9_pipeline_raises_before_output_witness :
    np_example_to_features [] [] evalDataConfig "eval" "unclamped"
        [("seq_length", { shape := [1], data := [5] })]
      = Except.error ("NameError: " ++ "tree")
    ∧ np_example_to_features [] [] evalDataConfig "eval" "clamped"
        [("seq_length", { shape := [1], data := [5] })]
      = Except.error ("NameError: " ++ "tree")
    ∧ (∃ tv, dictLookup (np_to_tensor_dict
          (dictSet (renameDeletionMatrix
            [("seq_length", { shape := [1], data := [5] })])
            "use_clamped_fape" (scalarT 0))
          (make_data_config evalDataConfig "eval" 5).2) "use_clamped_fape"
        = some tv ∧ tv.data = [0])
    ∧ (∃ tv2, dictLookup (np_to_tensor_dict
          (dictSet (renameDeletionMatrix
            [("seq_length", { shape := [1], data := [5] })])
            "use_clamped_fape" (scalarT 1))
          (make_data_config evalDataConfig "eval" 5).2) "use_clamped_fape"
        = some tv2 ∧ tv2.data = [1])
    ∧ NoTemplateKeys (np_to_tensor_dict
          (dictSet (renameDeletionMatrix
            [("seq_length", { shape := [1], data := [5] })])
            "use_clamped_fape" (scalarT 0))
          (make_data_config evalDataConfig "eval" 5).2) :=
  c9_pipeline_raises_before_output [] []
    [("seq_length", { shape := [1], data := [5] })]
    { shape := [1], data := [5] } 5 [] rfl rfl

/-! ## Claim theorem C10 -/

/-- Evaluation of `build_msa_feat` when the four MSA input keys are bound:
the body reaches `2. / math.pi` on line 177 and raises the `NameError` on
the unbound global `math` there. -/
theorem build_msa_feat_hits_math (atanModel : Rat → Rat) (piModel : Rat)
    (batch : TensorDict)
    (t1 : Tensor) (h1 : dictLookup batch "between_segment_residues" = some t1)
    (t2 : Tensor) (h2 : dictLookup batch "aatype" = some t2)
    (t3 : Tensor) (h3 : dictLookup batch "msa" = some t3)
    (t4 : Tensor) (h4 : dictLookup batch "deletion_matrix" = some t4) :
    build_msa_feat atanModel piModel batch
      = Except.error ("NameError: " ++ "math") := by
  unfold build_msa_feat getItem
  simp only [h1, h2, h3, h4]
  rfl

/-- C10 counterexample: on the empty input dictionary `build_msa_feat`
fails with a KEY lookup error on `between_segment_residues` (line 167), not
with an unbound-name error, so the claim's universal "fails with an
unbound-name error" does not hold for every input dictionary. -/
theorem c10_missing_key_counterexample :
    build_msa_feat (fun x => x) 1 []
      = Except.error ("KeyError: " ++ "between_segment_residues")
    ∧ build_msa_feat (fun x => x) 1 []
      ≠ Except.error ("NameError: " ++ "math") := by
  have h1 : build_msa_feat (fun x => x) 1 []
      = Except.error ("KeyError: " ++ "between_segment_residues") := rfl
  refine ⟨h1, ?_⟩
  rw [h1]
  intro h
  have h2 : ("KeyError: " ++ "between_segment_residues" : String)
      = "NameError: " ++ "math" := by
    injection h
  exact absurd h2 (by decide)

/-- C10 (amended): `build_msa_feat` never returns a result: for every model
of the transcendental pieces and every input dictionary, evaluation fails
before the final assignments (a missing input key raises a key error
first); whenever the four MSA input keys are present, it fails exactly with
the unbound-name error on `math` (line 177), which precedes the
cluster-profile branch (whose `tf` is also unbound) and the `protein`
membership test of line 193; and none of `math`, `tf`, `protein` is bound
among the module globals of feats.py. -/
theorem c10_build_msa_feat_never_returns (atanModel : Rat → Rat)
    (piModel : Rat) (batch : TensorDict) :
    (∀ r, build_msa_feat atanModel piModel batch ≠ Except.ok r)
    ∧ ((dictLookup batch "between_segment_residues").isSome = true →
       (dictLookup batch "aatype").isSome = true →
       (dictLookup batch "msa").isSome = true →
       (dictLookup batch "deletion_matrix").isSome = true →
       build_msa_feat atanModel piModel batch
         = Except.error ("NameError: " ++ "math"))
    ∧ resolveGlobal "math" = Except.error ("NameError: " ++ "math")
    ∧ resolveGlobal "tf" = Except.error ("NameError: " ++ "tf")
    ∧ resolveGlobal "protein" = Except.error ("NameError: " ++ "protein") := by
  refine ⟨?_, ?_, rfl, rfl, rfl⟩
  · intro r hr
    cases h1 : dictLookup batch "between_segment_residues" with
    | none =>
        have he : build_msa_feat atanModel piModel batch
            = Except.error ("KeyError: " ++ "between_segment_residues") := by
          unfold build_msa_feat getItem
          simp only [h1]
          rfl
        rw [he] at hr
        exact Except.noConfusion hr
    | some t1 =>
        cases h2 : dictLookup batch "aatype" with
        | none =>
            have he : build_msa_feat atanModel piModel batch
                = Except.error ("KeyError: " ++ "aatype") := by
              unfold build_msa_feat getItem
              simp only [h1, h2]
              rfl
            rw [he] at hr
            exact Except.noConfusion hr
        | some t2 =>
            cases h3 : dictLookup batch "msa" with
            | none =>
                have he : build_msa_feat atanModel piModel batch
                    = Except.error ("KeyError: " ++ "msa") := by
                  unfold build_msa_feat getItem
                  simp only [h1, h2, h3]
                  rfl
                rw [he] at hr
                exact Except.noConfusion hr
            | some t3 =>
                cases h4 : dictLookup batch "deletion_matrix" with
                | none =>
                    have he : build_msa_feat atanModel piModel batch
                        = Except.error ("KeyError: " ++ "deletion_matrix") := by
                      unfold build_msa_feat getItem
                      simp only [h1, h2, h3, h4]
                      rfl
                    rw [he] at hr
                    exact Except.noConfusion hr
                | some t4 =>
                    rw [build_msa_feat_hits_math atanModel piModel batch
                      t1 h1 t2 h2 t3 h3 t4 h4] at hr
                    exact Except.noConfusion hr
  · intro k1 k2 k3 k4
    obtain ⟨t1, h1⟩ := Option.isSome_iff_exists.mp k1
    obtain ⟨t2, h2⟩ := Option.isSome_iff_exists.mp k2
    obtain ⟨t3, h3⟩ := Option.isSome_iff_exists.mp k3
    obtain ⟨t4, h4⟩ := Option.isSome_iff_exists.mp k4
    exact build_msa_feat_hits_math atanModel piModel batch
      t1 h1 t2 h2 t3 h3 t4 h4

/-- C10 witness: a concrete dictionary binding the four MSA input keys, on
which the function raises the `NameError` on `math`; every hypothesis of
the amended theorem is discharged at this input. -/
theorem c10_build_msa_feat_never_returns_witness :
    (∀ r, build_msa_feat (fun x => x) 1
        [("between_segment_residues", scalarT 0), ("aatype", scalarT 0),
         ("msa", scalarT 0), ("deletion_matrix", scalarT 0)]
      ≠ Except.ok r)
    ∧ build_msa_feat (fun x => x) 1
        [("between_segment_residues", scalarT 0), ("aatype", scalarT 0),
         ("msa", scalarT 0), ("deletion_matrix", scalarT 0)]
      = Except.error ("NameError: " ++ "math")
    ∧ resolveGlobal "math" = Except.error ("NameError: " ++ "math")
    ∧ resolveGlobal "tf" = Except.error ("NameError: " ++ "tf")
    ∧ resolveGlobal "protein" = Except.error ("NameError: " ++ "protein") :=
  ⟨(c10_build_msa_feat_never_returns (fun x => x) 1
      [("between_segment_residues", scalarT 0), ("aatype", scalarT 0),
       ("msa", scalarT 0), ("deletion_matrix", scalarT 0)]).1,
   (c10_build_msa_feat_never_returns (fun x => x) 1
      [("between_segment_residues", scalarT 0), ("aatype", scalarT 0),
       ("msa", scalarT 0), ("deletion_matrix", scalarT 0)]).2.1
     rfl rfl rfl rfl,
   (c10_build_msa_feat_never_returns (fun x => x) 1
      [("between_segment_residues", scalarT 0), ("aatype", scalarT 0),
       ("msa", scalarT 0), ("deletion_matrix", scalarT 0)]).2.2.1,
   (c10_build_msa_feat_never_returns (fun x => x) 1
      [("between_segment_residues", scalarT 0), ("aatype", scalarT 0),
       ("msa", scalarT 0), ("deletion_matrix", scalarT 0)]).2.2.2.1,
   (c10_build_msa_feat_never_returns (fun x => x) 1
      [("between_segment_residues", scalarT 0), ("aatype", scalarT 0),
       ("msa", scalarT 0), ("deletion_matrix", scalarT 0)]).2.2.2.2⟩
